import Mathlib

/-!
Shallow embedding of the MediSuite claim-processing pipeline
(agents/triage_agent.py, agents/coverage_validation_agent.py,
agents/patient_data_agent.py, agents/document_code_agent.py,
orchestrator.py), together with theorems settling the spec claims.

Monetary amounts and confidence scores are modelled as exact rationals
(the Python code uses floats; the constants 0.95, 0.3, 0.15, 0.05, 0.1,
200, 500, 1000 are all exactly representable as rationals and the claims
concern their exact arithmetic).  The float formatting used only inside
human-readable justification strings is taken as a parameter, since no
claim depends on the formatted text.
-/

namespace MediSuite

/-! ### String helpers

Python string primitives (`str.lower`, `in` substring test, `str.split()`,
comparison) re-implemented over character lists, because the claims are
settled by evaluation and these must reduce.  All texts involved are ASCII,
where `Char.toLower` agrees with the Python lower-casing. -/

/-- Python `s.lower()`. -/
def lower (s : String) : String := String.mk (s.data.map Char.toLower)

/-- Lexicographic ≤ on character lists. -/
def leChars : List Char → List Char → Bool
  | [], _ => true
  | _ :: _, [] => false
  | a :: as, b :: bs => if a = b then leChars as bs else decide (a.toNat < b.toNat)

/-- Lexicographic ≤ on strings.  On well-formed `%Y-%m-%d` dates this
coincides with the order of the `datetime` values Python parses them to,
which is how `coverage_validation_agent.py` compares dates. -/
def strLe (a b : String) : Bool := leChars a.data b.data

/-- Does the second list occur at the head of the first list? -/
def hasPrefixChars : List Char → List Char → Bool
  | [], _ => true
  | _ :: _, [] => false
  | a :: as, b :: bs => a == b && hasPrefixChars as bs

/-- Does `needle` occur as a contiguous run inside the list? -/
def containsChars (needle : List Char) : List Char → Bool
  | [] => needle.isEmpty
  | c :: rest => hasPrefixChars needle (c :: rest) || containsChars needle rest

/-- Python `needle in hay` (substring containment). -/
def strContains (hay needle : String) : Bool := containsChars needle.data hay.data

/-- Helper for `splitWs`: accumulates the current word (reversed). -/
def wordsAux (cur : List Char) : List Char → List String
  | [] => if cur.isEmpty then [] else [String.mk cur.reverse]
  | c :: rest =>
    if c.isWhitespace then
      (if cur.isEmpty then [] else [String.mk cur.reverse]) ++ wordsAux [] rest
    else wordsAux (c :: cur) rest

/-- Python `s.split()`: split on whitespace runs, dropping empty pieces. -/
def splitWs (s : String) : List String := wordsAux [] s.data

/-- A single coverage-validation check, embedding the dicts
`{"check": ..., "passed": ..., "detail": ...}` built by
`CoverageValidationAgent.run`. -/
structure Check where
  check : String
  passed : Bool
  detail : String
deriving Repr, DecidableEq

/-- A risk factor, embedding the dicts
`{"factor": ..., "severity": ..., "detail": ...}` built by
`TriageAgent._assess_risk`. -/
structure RiskFactor where
  factor : String
  severity : String
  detail : String
deriving Repr, DecidableEq

/-- Embeds `severity_weights.get(f.get("severity", "low"), 0.05)` from
`TriageAgent._calculate_confidence`: the dict lookup with default 0.05
for any severity other than high/medium/low. -/
def severityWeight (s : String) : ℚ :=
  if s = "high" then 3/10
  else if s = "medium" then 15/100
  else 1/20

/-- Embeds `TriageAgent._calculate_confidence`. -/
def calculate_confidence (risk_factors : List RiskFactor) : ℚ :=
  if risk_factors.isEmpty then 95/100
  else
    max (1/10) (1 - (risk_factors.map (fun f => severityWeight f.severity)).sum)

/-- Embeds `TriageAgent._rule_based_triage`.  The parameter `fmt`
stands for the Python float formatting used in the rule 4 reason string
(no claim depends on the formatted text).  Returns (decision,
justification). -/
def rule_based_triage (fmt : ℚ → String)
    (validation_status validation_reason : String)
    (coverage_checks : List Check)
    (icd10_codes cpt4_codes : List String)
    (amount : ℚ) : String × String :=
  -- Rule 1: Invalid coverage → Deny
  if lower validation_status ≠ "valid" then
    ("Deny", "Coverage validation failed: " ++ validation_reason)
  else
    -- Rule 2: No diagnosis codes → Review
    let reasons : List String :=
      (if icd10_codes.isEmpty then ["No ICD-10 diagnosis codes provided."] else [])
    -- Rule 3: No procedure codes → Review
      ++ (if cpt4_codes.isEmpty then ["No CPT-4 procedure codes provided."] else [])
    -- Rule 4: High-value claims → Review
      ++ (if amount > 1000 then ["High-value claim (" ++ fmt amount ++ ")."] else [])
    -- Rule 5: failed coverage sub-checks
      ++ ((coverage_checks.filter (fun c => !c.passed)).map
            (fun fc => "Failed check: " ++ fc.check ++ " – " ++ fc.detail))
    if !reasons.isEmpty then
      ("Review", String.intercalate " | " reasons)
    else
      ("Approve", "All validations passed. Coverage is active, codes are present, and amount is within normal range.")

/-! ### Patient Data Agent (agents/patient_data_agent.py) -/

/-- The `insurance_details` block of a patient record.  A Python dict that
is absent, `None` or empty (all falsy under `not patient.get(field)` and
`if insurance:`) is modelled as `none`; a non-empty dict — whose required
keys may still hold empty strings — as `some`. -/
structure InsuranceDetails where
  policy_number : String
  provider : String
deriving Repr, DecidableEq

/-- A patient record.  String fields model `patient.get(field)` with `""`
standing for an absent, `None` or empty value (all equally falsy in the
Python checks). -/
structure PatientInfo where
  patient_id : String
  name : String
  dob : String
  insurance_details : Option InsuranceDetails
deriving Repr, DecidableEq

/-- Embeds `PatientDataAgent._validate_patient`: the loop over
`REQUIRED_FIELDS = [patient_id, name, dob, insurance_details]` followed by
the loop over `REQUIRED_INSURANCE_FIELDS = [policy_number, provider]`,
the latter guarded by `if insurance:`. -/
def validate_patient (patient : PatientInfo) : List String :=
  ((if patient.patient_id = "" then ["Missing required field: patient_id"] else [])
    ++ (if patient.name = "" then ["Missing required field: name"] else [])
    ++ (if patient.dob = "" then ["Missing required field: dob"] else [])
    ++ (if patient.insurance_details.isNone then ["Missing required field: insurance_details"] else []))
  ++ (match patient.insurance_details with
      | none => []
      | some ins =>
        (if ins.policy_number = "" then ["Missing required insurance field: policy_number"] else [])
          ++ (if ins.provider = "" then ["Missing required insurance field: provider"] else []))

/-- Embeds `is_valid = len(validation_errors) == 0` from
`PatientDataAgent.run`. -/
def patient_is_valid (patient : PatientInfo) : Bool :=
  (validate_patient patient).isEmpty

/-! ### Coverage Validation Agent (agents/coverage_validation_agent.py)

The Knowledge-Store insert/retrieve calls (`_store_result`,
`kb.retrieve_documents`) are collaborator side effects that do not feed
back into the returned verdict/reason/checks and are omitted; likewise the
`prior_validations_count` field.  `datetime.now()` is passed in as the
`now` parameter (an ISO `%Y-%m-%d` date compared via `strLe`). -/

/-- A record of the policy database (`policy_database.json`), loaded once
at start-up and immutable. -/
structure Policy where
  policy_number : String
  provider : String
  plan_type : String
  effective_date : String
  expiry_date : String
  coverage : String
  copay : ℚ
  deductible : ℚ
  deductible_met : Bool
  covered_services : List String
deriving Repr, DecidableEq

/-- Result of `CoverageValidationAgent.run`.  `policy_details` keeps the
whole found policy (the source copies a fixed subset of its fields); no
claim inspects the copied fields, only `none`-ness. -/
structure CoverageResult where
  validation_status : String
  reason : String
  policy_details : Option Policy
  coverage_checks : List Check
deriving Repr, DecidableEq

/-- Input dict of `CoverageValidationAgent.run` as assembled by the
orchestrator: `insurance_details`, `cpt4_codes`, `amount`. -/
structure CoverageStageInput where
  insurance_details : Option InsuranceDetails
  cpt4_codes : List String
  amount : ℚ
deriving Repr, DecidableEq

/-- Embeds `CoverageValidationAgent._find_policy`: first database entry
whose `policy_number` equals the given number. -/
def find_policy (db : List Policy) (policy_number : String) : Option Policy :=
  db.find? (fun p => p.policy_number == policy_number)

/-- The four checks built by `CoverageValidationAgent.run` (Steps 2) for a
found policy, in source order. -/
def coverage_checks_of (now : String) (policy : Policy) (provider : String) : List Check :=
  let is_active := strLe policy.effective_date now && strLe now policy.expiry_date
  let is_coverage_valid := lower policy.coverage = "valid"
  let provider_match :=
    if provider ≠ "" then lower provider = lower policy.provider else true
  let services_covered := policy.covered_services.length > 0
  [ { check := "Policy Active",
      passed := is_active,
      detail :=
        if is_active then
          "Effective " ++ policy.effective_date ++ " – " ++ policy.expiry_date
        else
          "Policy expired on " ++ policy.expiry_date },
    { check := "Coverage Status",
      passed := is_coverage_valid,
      detail := "Coverage status: " ++ policy.coverage },
    { check := "Provider Match",
      passed := provider_match,
      detail :=
        if provider_match then
          "Provider matches: " ++ policy.provider
        else
          "Provider mismatch: expected " ++ policy.provider ++ ", got " ++ provider },
    { check := "Service Coverage",
      passed := services_covered,
      detail := "Covered services: " ++ String.intercalate ", " policy.covered_services } ]

/-- Python `insurance.get("policy_number", "")` in
`CoverageValidationAgent.run`. -/
def input_policy_number (input : CoverageStageInput) : String :=
  match input.insurance_details with
  | some i => i.policy_number
  | none => ""

/-- Python `insurance.get("provider", "")` in
`CoverageValidationAgent.run`. -/
def input_provider (input : CoverageStageInput) : String :=
  match input.insurance_details with
  | some i => i.provider
  | none => ""

/-- Embeds `CoverageValidationAgent.run` (Steps 1–3 and the returned
record). -/
def coverage_run (now : String) (db : List Policy) (input : CoverageStageInput) : CoverageResult :=
  let policy_number := input_policy_number input
  let provider := input_provider input
  match find_policy db policy_number with
  | none =>
    { validation_status := "Invalid",
      reason := "Policy " ++ policy_number ++ " not found in database.",
      policy_details := none,
      coverage_checks := [] }
  | some policy =>
    let checks := coverage_checks_of now policy provider
    let all_passed := checks.all (fun c => c.passed)
    let reasons :=
      if all_passed then ["All validation checks passed."]
      else (checks.filter (fun c => !c.passed)).map (fun c => c.check ++ ": " ++ c.detail)
    { validation_status := if all_passed then "Valid" else "Invalid",
      reason := String.intercalate " | " reasons,
      policy_details := some policy,
      coverage_checks := checks }

/-! ### Document Code Agent (agents/document_code_agent.py)

Local fallback lookups only (`_local_cpt4_lookup`, `_calculate_amount`);
the AI path returns nothing when the inference backend is unavailable. -/

/-- One record of the CPT-4 catalog (`cpt4_codes.json`): description and
base billing rate.  The catalog is modelled as an association list from
code to record, preserving the (insertion-ordered) dict iteration order. -/
structure CptInfo where
  description : String
  base_rate : ℚ
deriving Repr, DecidableEq

/-- Inner loop body of `DocumentCodeAgent._local_cpt4_lookup`: one
catalog entry is appended when its description contains some of the
of the >3-character tokens of the procedure and the code is not already present. -/
def cpt_entry_step (words : List String) (codes : List String)
    (entry : String × CptInfo) : List String :=
  if words.any (fun w => strContains (lower entry.2.description) w)
      && !(codes.contains entry.1) then
    codes ++ [entry.1]
  else codes

/-- Outer loop body of `DocumentCodeAgent._local_cpt4_lookup`: one
procedure string is tokenized (lower-cased, whitespace-split, tokens
longer than 3 characters) and matched against every catalog entry. -/
def cpt_proc_step (db : List (String × CptInfo)) (codes : List String)
    (procedure : String) : List String :=
  let words := (splitWs (lower procedure)).filter (fun w => w.length > 3)
  db.foldl (cpt_entry_step words) codes

/-- The token-overlap matching loops of
`DocumentCodeAgent._local_cpt4_lookup` over all procedures. -/
def local_cpt4_match (db : List (String × CptInfo)) (procedures : List String) : List String :=
  procedures.foldl (cpt_proc_step db) []

/-- Python `any("rapid" in p.lower() or "influenza" in p.lower() for p in procedures)`. -/
def mentions_rapid_or_influenza (procedures : List String) : Bool :=
  procedures.any (fun p => strContains (lower p) "rapid" || strContains (lower p) "influenza")

/-- Embeds `DocumentCodeAgent._local_cpt4_lookup`: matching loops, the
`99213` default when nothing matched, then the guarded `87804` append. -/
def local_cpt4_lookup (db : List (String × CptInfo)) (procedures : List String) : List String :=
  let codes := local_cpt4_match db procedures
  let codes := if codes.isEmpty then codes ++ ["99213"] else codes
  if mentions_rapid_or_influenza procedures then
    if !(codes.contains "87804") then codes ++ ["87804"] else codes
  else codes

/-- Python `self._cpt4_db.get(code, {}).get("base_rate", 0.0)`. -/
def cpt_rate (db : List (String × CptInfo)) (code : String) : ℚ :=
  match db.find? (fun entry => entry.1 == code) with
  | some entry => entry.2.base_rate
  | none => 0

/-- Embeds `DocumentCodeAgent._calculate_amount`: sum of base rates, with
the `200.00` default when the total is not positive. -/
def calculate_amount (db : List (String × CptInfo)) (cpt4_codes : List String) : ℚ :=
  let total := (cpt4_codes.map (cpt_rate db)).sum
  if total > 0 then total else 200

/-! ### Orchestrator (orchestrator.py)

`MediSuiteOrchestrator.run_workflow` is embedded with explicit failure
values: loading the input files and each of the five agent calls is an
arbitrary function into `Except String _` (the `String` carries
`str(exc)`), standing for Python code that may raise.  Durations
(wall-clock time) and logging are omitted.  `document_metadata` is an
opaque payload type `M`. -/

/-- Payload of a successful Patient Data Agent call, restricted to the
keys the orchestrator reads downstream (`diagnoses`, `procedures`,
`is_valid`): exactly the keys of the substituted default dict. -/
structure PatientStageResult where
  diagnoses : List String
  procedures : List String
  is_valid : Bool
deriving Repr, DecidableEq

/-- Default patient payload substituted at orchestrator.py lines 93–97. -/
def patient_default_payload : PatientStageResult :=
  { diagnoses := [], procedures := [], is_valid := false }

/-- Payload of a successful Document Code Agent call, restricted to the
keys the orchestrator reads downstream. -/
structure DocStageResult where
  icd10_codes : List String
  cpt4_codes : List String
  amount : ℚ
deriving Repr, DecidableEq

/-- Default document payload substituted at orchestrator.py lines 118–122. -/
def document_default_payload : DocStageResult :=
  { icd10_codes := [], cpt4_codes := [], amount := 0 }

/-- Default coverage payload substituted at orchestrator.py line 141:
`{"validation_status": "Unknown", "reason": str(exc)}`.  The dict lacks
`policy_details`/`coverage_checks`; downstream reads use
`.get(..., [])`, so those keys are modelled as `none` / `[]`. -/
def coverage_default_payload (exc : String) : CoverageResult :=
  { validation_status := "Unknown",
    reason := exc,
    policy_details := none,
    coverage_checks := [] }

/-- Payload of a successful Claim Generation Agent call, restricted to
the keys the orchestrator reads downstream. -/
structure ClaimStageResult where
  claim_id : String
  pdf_path : String
deriving Repr, DecidableEq

/-- Default claim payload substituted at orchestrator.py line 165:
`{"claim_id": "ERROR"}`; the missing `pdf_path` key is read with default
`"N/A"` in the summary. -/
def claim_default_payload : ClaimStageResult :=
  { claim_id := "ERROR", pdf_path := "N/A" }

/-- Payload of a successful Triage Agent call, restricted to the keys the
orchestrator reads for the summary. -/
structure TriageStageResult where
  decision : String
  justification : String
  risk_factors : List RiskFactor
  confidence : ℚ
deriving Repr, DecidableEq

/-- Input dict of the Patient Data Agent call (orchestrator.py 83–86). -/
structure PatientStageInput where
  patient_info : PatientInfo
  clinical_notes : String
deriving Repr, DecidableEq

/-- Input dict of the Document Code Agent call (orchestrator.py 105–111). -/
structure DocStageInput (M : Type) where
  patient_info : PatientInfo
  diagnoses : List String
  procedures : List String
  document_metadata : M
  clinical_notes : String

/-- Input dict of the Claim Generation Agent call (orchestrator.py 149–158). -/
structure ClaimStageInput where
  patient_info : PatientInfo
  diagnoses : List String
  procedures : List String
  icd10_codes : List String
  cpt4_codes : List String
  amount : ℚ
  validation_status : String
  clinical_notes : String
deriving Repr, DecidableEq

/-- Input dict of the Triage Agent call (orchestrator.py 173–182). -/
structure TriageStageInput where
  validation_status : String
  validation_reason : String
  coverage_checks : List Check
  icd10_codes : List String
  cpt4_codes : List String
  amount : ℚ
  claim_id : String
  patient_id : String
deriving Repr, DecidableEq

/-- The successfully loaded input files (orchestrator.py 64–71). -/
structure WorkflowInputs (M : Type) where
  patient_info : PatientInfo
  clinical_notes : String
  document_metadata : M

/-- The per-stage entries of `results["steps"]`: either the
success payload of the stage or the error message. -/
structure WorkflowSteps where
  patient_data : Except String PatientStageResult
  document_code : Except String DocStageResult
  coverage_validation : Except String CoverageResult
  claim_generation : Except String ClaimStageResult
  triage : Except String TriageStageResult

/-- Record for `results["summary"]` (orchestrator.py 194–201). -/
structure WorkflowSummary where
  patient : String
  claim_id : String
  decision : String
  justification : String
  amount : ℚ
  pdf_path : String
deriving Repr, DecidableEq

/-- The dict returned by `run_workflow`.  On the input-loading failure
path Python returns only `steps = {}` (modelled `none`), the error list
and `status = "error"`, with no summary. -/
structure WorkflowReturn where
  steps : Option WorkflowSteps
  errors : List String
  status : String
  summary : Option WorkflowSummary

/-- The `except Exception as exc` pattern of each orchestrator step: a
successful stage keeps its payload and adds no error; a failing one is
replaced by the documented default payload and its message, prefixed with
the stage name, is appended to the error list. -/
def caught {α : Type} (label : String) (dflt : String → α)
    (step : Except String α) : α × List String :=
  match step with
  | .ok r => (r, [])
  | .error exc => (dflt exc, [label ++ ": " ++ exc])

/-- The substituted patient payload: the stage payload on success, the
documented default on failure. -/
def patient_result_of (s : Except String PatientStageResult) : PatientStageResult :=
  (caught "Patient Data Agent" (fun _ => patient_default_payload) s).1

/-- The substituted document payload. -/
def document_result_of (s : Except String DocStageResult) : DocStageResult :=
  (caught "Document Code Agent" (fun _ => document_default_payload) s).1

/-- The substituted coverage payload. -/
def coverage_result_of (s : Except String CoverageResult) : CoverageResult :=
  (caught "Coverage Validation Agent" coverage_default_payload s).1

/-- The substituted claim payload. -/
def claim_result_of (s : Except String ClaimStageResult) : ClaimStageResult :=
  (caught "Claim Generation Agent" (fun _ => claim_default_payload) s).1

set_option maxHeartbeats 1000000 in
/-- The five sequential stage invocations of
`MediSuiteOrchestrator.run_workflow` with their data threading: each
later stage input dict is built from the (possibly defaulted) payloads
of the earlier stages, exactly as in orchestrator.py lines 77–188. -/
def run_steps {M : Type} (inputs : WorkflowInputs M)
    (patientStage : PatientStageInput → Except String PatientStageResult)
    (documentStage : DocStageInput M → Except String DocStageResult)
    (coverageStage : CoverageStageInput → Except String CoverageResult)
    (claimStage : ClaimStageInput → Except String ClaimStageResult)
    (triageStage : TriageStageInput → Except String TriageStageResult) :
    WorkflowSteps :=
  -- Step 1: Patient Data Agent
  let patient_step : Except String PatientStageResult := patientStage
    { patient_info := inputs.patient_info, clinical_notes := inputs.clinical_notes }
  let patient_result : PatientStageResult := patient_result_of patient_step
  -- Step 2: Document Code Agent
  let document_step : Except String DocStageResult := documentStage
    { patient_info := inputs.patient_info,
      diagnoses := patient_result.diagnoses,
      procedures := patient_result.procedures,
      document_metadata := inputs.document_metadata,
      clinical_notes := inputs.clinical_notes }
  let document_result : DocStageResult := document_result_of document_step
  -- Step 3: Coverage Validation Agent
  let coverage_step : Except String CoverageResult := coverageStage
    { insurance_details := inputs.patient_info.insurance_details,
      cpt4_codes := document_result.cpt4_codes,
      amount := document_result.amount }
  let coverage_result : CoverageResult := coverage_result_of coverage_step
  -- Step 4: Claim Generation Agent
  let claim_step : Except String ClaimStageResult := claimStage
    { patient_info := inputs.patient_info,
      diagnoses := patient_result.diagnoses,
      procedures := patient_result.procedures,
      icd10_codes := document_result.icd10_codes,
      cpt4_codes := document_result.cpt4_codes,
      amount := document_result.amount,
      validation_status := coverage_result.validation_status,
      clinical_notes := inputs.clinical_notes }
  let claim_result : ClaimStageResult := claim_result_of claim_step
  -- Step 5: Triage Agent
  let triage_step : Except String TriageStageResult := triageStage
    { validation_status := coverage_result.validation_status,
      validation_reason := coverage_result.reason,
      coverage_checks := coverage_result.coverage_checks,
      icd10_codes := document_result.icd10_codes,
      cpt4_codes := document_result.cpt4_codes,
      amount := document_result.amount,
      claim_id := claim_result.claim_id,
      patient_id := inputs.patient_info.patient_id }
  { patient_data := patient_step,
    document_code := document_step,
    coverage_validation := coverage_step,
    claim_generation := claim_step,
    triage := triage_step }

/-- The accumulated `results["errors"]` list: one prefixed entry per
failed stage, in pipeline order (each appended inside the corresponding
`except` block of orchestrator.py). -/
def stage_errors (s : WorkflowSteps) : List String :=
  (caught "Patient Data Agent" (fun _ => patient_default_payload) s.patient_data).2
  ++ (caught "Document Code Agent" (fun _ => document_default_payload) s.document_code).2
  ++ (caught "Coverage Validation Agent" coverage_default_payload s.coverage_validation).2
  ++ (caught "Claim Generation Agent" (fun _ => claim_default_payload) s.claim_generation).2
  ++ (match s.triage with
      | .ok _ => []
      | .error exc => ["Triage Agent: " ++ exc])

/-- Computes `results["summary"]` (orchestrator.py lines 194–201), read back from
the step outcomes with the same `.get(..., default)` fallbacks. -/
def summary_of {M : Type} (inputs : WorkflowInputs M) (s : WorkflowSteps) : WorkflowSummary :=
  { patient := inputs.patient_info.name,
    claim_id := (claim_result_of s.claim_generation).claim_id,
    decision := match s.triage with
      | .ok t => t.decision
      | .error _ => "N/A",
    justification := match s.triage with
      | .ok t => t.justification
      | .error _ => "N/A",
    amount := (document_result_of s.document_code).amount,
    pdf_path := (claim_result_of s.claim_generation).pdf_path }

/-- Embeds `MediSuiteOrchestrator.run_workflow`: load inputs (terminal on
failure), run the five stages in order, catching each stage failure,
recording it in the error list and substituting the documented default
payload, then derive the status and summary. -/
def run_workflow {M : Type}
    (load : Except String (WorkflowInputs M))
    (patientStage : PatientStageInput → Except String PatientStageResult)
    (documentStage : DocStageInput M → Except String DocStageResult)
    (coverageStage : CoverageStageInput → Except String CoverageResult)
    (claimStage : ClaimStageInput → Except String ClaimStageResult)
    (triageStage : TriageStageInput → Except String TriageStageResult) :
    WorkflowReturn :=
  match load with
  | .error exc =>
    { steps := none,
      errors := ["Failed to load input files: " ++ exc],
      status := "error",
      summary := none }
  | .ok inputs =>
    let steps := run_steps inputs patientStage documentStage coverageStage
      claimStage triageStage
    let errors := stage_errors steps
    { steps := some steps,
      errors := errors,
      status := if errors.isEmpty then "completed" else "completed_with_errors",
      summary := some (summary_of inputs steps) }

/-! ### Helper lemmas -/

/-- Rule 1 of `_rule_based_triage`: a non-`valid` (case-insensitive)
validation status short-circuits to Deny with the prefixed reason. -/
theorem rule_based_triage_deny_of_not_valid (fmt : ℚ → String)
    (validation_status validation_reason : String)
    (coverage_checks : List Check) (icd10_codes cpt4_codes : List String)
    (amount : ℚ) (h : lower validation_status ≠ "valid") :
    rule_based_triage fmt validation_status validation_reason coverage_checks
        icd10_codes cpt4_codes amount
      = ("Deny", "Coverage validation failed: " ++ validation_reason) := by
  unfold rule_based_triage
  rw [if_pos h]

/-- Every severity weight is at least the low/default weight 0.05. -/
theorem severityWeight_lb (s : String) : 1/20 ≤ severityWeight s := by
  unfold severityWeight; split_ifs <;> norm_num

/-- The total penalty of a non-empty risk-factor list is at least 0.05. -/
theorem risk_penalty_lb (l : List RiskFactor) (h : l ≠ []) :
    1/20 ≤ (l.map (fun f => severityWeight f.severity)).sum := by
  match l with
  | [] => exact absurd rfl h
  | f :: t =>
    have h1 : 1/20 ≤ severityWeight f.severity := severityWeight_lb _
    have h2 : 0 ≤ (t.map (fun f => severityWeight f.severity)).sum := by
      apply List.sum_nonneg
      intro x hx
      simp only [List.mem_map] at hx
      obtain ⟨f, _, rfl⟩ := hx
      calc (0:ℚ) ≤ 1/20 := by norm_num
        _ ≤ _ := severityWeight_lb _
    simp only [List.map_cons, List.sum_cons]
    linarith

/-- Confidence stays in `[0.1, 0.95]`. -/
theorem calculate_confidence_bounds (l : List RiskFactor) :
    1/10 ≤ calculate_confidence l ∧ calculate_confidence l ≤ 95/100 := by
  unfold calculate_confidence
  rcases eq_or_ne l [] with rfl | h
  · norm_num
  · rw [if_neg (by simpa using h : ¬(l.isEmpty = true))]
    constructor
    · exact le_max_left _ _
    · have := risk_penalty_lb l h
      apply max_le <;> linarith

/-- Appending a high-severity factor never increases confidence. -/
theorem calculate_confidence_append_high (l : List RiskFactor) (f : RiskFactor)
    (h : f.severity = "high") :
    calculate_confidence (l ++ [f]) ≤ calculate_confidence l := by
  have hw : severityWeight f.severity = 3/10 := by rw [h]; rfl
  unfold calculate_confidence
  rcases eq_or_ne l [] with rfl | hne
  · simp [hw]
    norm_num [max_le_iff]
  · rw [if_neg (by simp : ¬((l ++ [f]).isEmpty = true))]
    rw [if_neg (by simpa using hne : ¬(l.isEmpty = true))]
    rw [List.map_append, List.sum_append]
    simp only [List.map_cons, List.map_nil, List.sum_cons, List.sum_nil, hw]
    apply max_le_max le_rfl
    linarith

/-! ### Claim theorems -/

/-- Claim C1 (corrected): whenever the coverage verdict is not `valid`
case-insensitively, `_rule_based_triage` returns Deny regardless of every
other input (rules 2–5 cannot influence the result), and the
justification is the coverage reason *prefixed with* "Coverage validation
failed: " — not the bare coverage reason claimed. -/
theorem claim_C1 (fmt : ℚ → String) (validation_status validation_reason : String)
    (coverage_checks : List Check) (icd10_codes cpt4_codes : List String)
    (amount : ℚ) (h : lower validation_status ≠ "valid") :
    rule_based_triage fmt validation_status validation_reason coverage_checks
        icd10_codes cpt4_codes amount
      = ("Deny", "Coverage validation failed: " ++ validation_reason) :=
  rule_based_triage_deny_of_not_valid fmt validation_status validation_reason
    coverage_checks icd10_codes cpt4_codes amount h

/-- Witness for C1 at a concrete input. -/
theorem claim_C1_witness :
    rule_based_triage (fun _ => "") "Invalid" "Policy POL123 not found in database."
        [] ["J10.1"] ["99213"] 50
      = ("Deny", "Coverage validation failed: Policy POL123 not found in database.") :=
  claim_C1 (fun _ => "") "Invalid" "Policy POL123 not found in database."
    [] ["J10.1"] ["99213"] 50 (by decide)

/-- Counterexample to C1 as stated: the justification is not equal to the
coverage reason text (it carries the "Coverage validation failed: "
prefix). -/
theorem claim_C1_counterexample :
    (rule_based_triage (fun _ => "") "Invalid" "Policy POL123 not found in database."
        [] [] [] 0).1 = "Deny"
  ∧ (rule_based_triage (fun _ => "") "Invalid" "Policy POL123 not found in database."
        [] [] [] 0).2 ≠ "Policy POL123 not found in database." := by
  decide

/-- Claim C4: the per-severity penalties are 0.30 / 0.15 / 0.05; the
confidence is 0.95 on no risk factors and otherwise
`max 0.1 (1 - total penalty)`; it always lies in `[0.1, 0.95]` and is
non-increasing under appending a high-severity factor. -/
theorem claim_C4 (risk_factors : List RiskFactor) :
    (severityWeight "high" = 30/100 ∧ severityWeight "medium" = 15/100
      ∧ severityWeight "low" = 5/100)
  ∧ calculate_confidence [] = 95/100
  ∧ (risk_factors ≠ [] →
      calculate_confidence risk_factors
        = max (1/10) (1 - (risk_factors.map (fun f => severityWeight f.severity)).sum))
  ∧ (1/10 ≤ calculate_confidence risk_factors
      ∧ calculate_confidence risk_factors ≤ 95/100)
  ∧ (∀ f : RiskFactor, f.severity = "high" →
      calculate_confidence (risk_factors ++ [f]) ≤ calculate_confidence risk_factors) := by
  refine ⟨⟨by rw [show severityWeight "high" = 3/10 from rfl]; norm_num,
      by rw [show severityWeight "medium" = 15/100 from rfl],
      by rw [show severityWeight "low" = 1/20 from rfl]; norm_num⟩, rfl, ?_,
    calculate_confidence_bounds risk_factors, ?_⟩
  · intro h
    unfold calculate_confidence
    rw [if_neg (by simpa using h : ¬(risk_factors.isEmpty = true))]
  · intro f hf
    exact calculate_confidence_append_high risk_factors f hf

/-- Witness for C4 at a concrete input: one high-severity factor gives
confidence 0.7, and appending another high factor does not raise it. -/
theorem claim_C4_witness :
    calculate_confidence
        [⟨"Invalid Coverage", "high", "Insurance coverage validation failed."⟩]
      = max (1/10) (1 - ([(⟨"Invalid Coverage", "high",
          "Insurance coverage validation failed."⟩ : RiskFactor)].map
            (fun f => severityWeight f.severity)).sum)
  ∧ calculate_confidence
        ([⟨"Invalid Coverage", "high", "Insurance coverage validation failed."⟩]
          ++ [⟨"Missing Diagnosis Codes", "high", "No ICD-10 codes present on claim."⟩])
      ≤ calculate_confidence
          [⟨"Invalid Coverage", "high", "Insurance coverage validation failed."⟩] := by
  have h := claim_C4 [⟨"Invalid Coverage", "high", "Insurance coverage validation failed."⟩]
  exact ⟨h.2.2.1 (by decide),
    h.2.2.2.2 ⟨"Missing Diagnosis Codes", "high", "No ICD-10 codes present on claim."⟩ rfl⟩

/-- Claim C9: a single low-severity risk factor also yields confidence
exactly 0.95 — the maximum —, equal to the zero-factor confidence, so
maximal confidence does not imply an absence of risk factors. -/
theorem claim_C9 :
    calculate_confidence
        [⟨"Multiple Diagnoses", "low", "5 diagnosis codes — may need review."⟩]
      = 95/100
  ∧ calculate_confidence [] = 95/100
  ∧ ([⟨"Multiple Diagnoses", "low", "5 diagnosis codes — may need review."⟩] : List RiskFactor)
      ≠ [] := by
  refine ⟨?_, rfl, by decide⟩
  unfold calculate_confidence
  rw [if_neg (by decide)]
  simp only [List.map_cons, List.map_nil, List.sum_cons, List.sum_nil]
  rw [show severityWeight "low" = 1/20 from rfl]
  rw [max_eq_right (by norm_num)]
  norm_num

/-- Claim C10: every validation status whose lower-cased value is not
"valid" — in particular the "Unknown" the orchestrator substitutes when
the Coverage Validation stage throws — makes the rule-based fallback
return Deny, for all other inputs. -/
theorem claim_C10 (fmt : ℚ → String) (validation_status validation_reason : String)
    (coverage_checks : List Check) (icd10_codes cpt4_codes : List String)
    (amount : ℚ) (h : lower validation_status ≠ "valid") :
    (rule_based_triage fmt validation_status validation_reason coverage_checks
        icd10_codes cpt4_codes amount).1 = "Deny"
  ∧ (∀ exc, lower (coverage_default_payload exc).validation_status ≠ "valid")
  ∧ (∀ exc reason checks icd cpt amt,
      (rule_based_triage fmt (coverage_default_payload exc).validation_status
          reason checks icd cpt amt).1 = "Deny") := by
  refine ⟨?_, ?_, ?_⟩
  · rw [rule_based_triage_deny_of_not_valid fmt validation_status validation_reason
      coverage_checks icd10_codes cpt4_codes amount h]
  · intro exc
    show lower "Unknown" ≠ "valid"
    decide
  · intro exc reason checks icd cpt amt
    have hu : lower (coverage_default_payload exc).validation_status ≠ "valid" := by
      show lower "Unknown" ≠ "valid"
      decide
    rw [rule_based_triage_deny_of_not_valid fmt
      (coverage_default_payload exc).validation_status reason checks icd cpt amt hu]

/-- Witness for C10 at the concrete "Unknown" status. -/
theorem claim_C10_witness :
    (rule_based_triage (fun _ => "") "Unknown" "boom" [] [] [] 0).1 = "Deny" :=
  (claim_C10 (fun _ => "") "Unknown" "boom" [] [] [] 0 (by decide)).1

/-- Claim C2 (corrected): for a found policy exactly the four checks run,
the verdict is Valid iff every check passed (and is Invalid otherwise),
and on an Invalid verdict the reason pipe-joins, for exactly the failing
checks, the strings "check name: detail" — not the bare detail strings
claimed. -/
theorem claim_C2 (now : String) (db : List Policy) (input : CoverageStageInput)
    (policy : Policy) (h : find_policy db (input_policy_number input) = some policy) :
    (coverage_run now db input).coverage_checks
        = coverage_checks_of now policy (input_provider input)
  ∧ (coverage_run now db input).coverage_checks.length = 4
  ∧ ((coverage_run now db input).validation_status = "Valid"
      ↔ ∀ c ∈ (coverage_run now db input).coverage_checks, c.passed = true)
  ∧ ((coverage_run now db input).validation_status = "Valid"
      ∨ (coverage_run now db input).validation_status = "Invalid")
  ∧ ((coverage_run now db input).validation_status = "Invalid" →
      (coverage_run now db input).reason = String.intercalate " | "
        (((coverage_run now db input).coverage_checks.filter (fun c => !c.passed)).map
          (fun c => c.check ++ ": " ++ c.detail))) := by
  have hr : coverage_run now db input =
      (let checks := coverage_checks_of now policy (input_provider input)
       let all_passed := checks.all (fun c => c.passed)
       let reasons :=
         if all_passed then ["All validation checks passed."]
         else (checks.filter (fun c => !c.passed)).map (fun c => c.check ++ ": " ++ c.detail)
       { validation_status := if all_passed then "Valid" else "Invalid",
         reason := String.intercalate " | " reasons,
         policy_details := some policy,
         coverage_checks := checks }) := by
    simp only [coverage_run]
    rw [h]
  have hchecks : (coverage_run now db input).coverage_checks
      = coverage_checks_of now policy (input_provider input) := by
    rw [hr]
  have hlen : (coverage_run now db input).coverage_checks.length = 4 := by
    rw [hchecks]
    rfl
  have hstatus : (coverage_run now db input).validation_status
      = (if (coverage_checks_of now policy (input_provider input)).all (fun c => c.passed)
          then "Valid" else "Invalid") := by
    rw [hr]
  have hreason : (coverage_run now db input).reason
      = String.intercalate " | "
          (if (coverage_checks_of now policy (input_provider input)).all (fun c => c.passed) then
            ["All validation checks passed."]
          else ((coverage_checks_of now policy (input_provider input)).filter
              (fun c => !c.passed)).map (fun c => c.check ++ ": " ++ c.detail)) := by
    rw [hr]
  cases hall : (coverage_checks_of now policy (input_provider input)).all (fun c => c.passed) with
  | false =>
    have hs : (coverage_run now db input).validation_status = "Invalid" := by
      rw [hstatus, hall]
      rfl
    have hnot : ¬ ∀ c ∈ coverage_checks_of now policy (input_provider input), c.passed = true := by
      intro hforall
      have hc : (coverage_checks_of now policy (input_provider input)).all (fun c => c.passed)
          = true := List.all_eq_true.mpr hforall
      rw [hall] at hc
      exact Bool.false_ne_true hc
    refine ⟨hchecks, hlen, ?_, Or.inr hs, ?_⟩
    · rw [hs, hchecks]
      constructor
      · intro hv
        exact absurd hv (by decide)
      · intro hforall
        exact absurd hforall hnot
    · intro _
      rw [hreason, hall, hchecks]
      simp only [Bool.false_eq_true, if_false]
  | true =>
    have hs : (coverage_run now db input).validation_status = "Valid" := by
      rw [hstatus, hall]
      rfl
    refine ⟨hchecks, hlen, ?_, Or.inl hs, ?_⟩
    · rw [hs, hchecks]
      constructor
      · intro _
        exact List.all_eq_true.mp hall
      · intro _
        rfl
    · intro hv
      rw [hs] at hv
      exact absurd hv (by decide)

/-- Sample policy used by the C2 witness and counterexample: coverage
field "Expired" makes exactly the Coverage Status check fail. -/
def samplePolicyExpired : Policy :=
  { policy_number := "POL001", provider := "Aetna", plan_type := "PPO",
    effective_date := "2024-01-01", expiry_date := "2030-12-31",
    coverage := "Expired", copay := 20, deductible := 500,
    deductible_met := false,
    covered_services := ["office visits", "lab tests"] }

/-- Sample coverage input matching `samplePolicyExpired`. -/
def sampleCoverageInput : CoverageStageInput :=
  { insurance_details := some { policy_number := "POL001", provider := "Aetna" },
    cpt4_codes := ["99213"], amount := 125 }

/-- Witness for C2 at a concrete found policy. -/
theorem claim_C2_witness :
    (coverage_run "2025-06-05" [samplePolicyExpired] sampleCoverageInput).coverage_checks.length = 4
  ∧ ((coverage_run "2025-06-05" [samplePolicyExpired] sampleCoverageInput).validation_status = "Valid"
      ↔ ∀ c ∈ (coverage_run "2025-06-05" [samplePolicyExpired] sampleCoverageInput).coverage_checks,
          c.passed = true) := by
  have h := claim_C2 "2025-06-05" [samplePolicyExpired] sampleCoverageInput
    samplePolicyExpired (by decide)
  exact ⟨h.2.1, h.2.2.1⟩

/-- Counterexample to C2 as stated: with one failing check (Coverage
Status) the reason is "Coverage Status: Coverage status: Expired", which
is not the pipe-join of the bare detail strings of the failing checks. -/
theorem claim_C2_counterexample :
    (coverage_run "2025-06-05" [samplePolicyExpired] sampleCoverageInput).validation_status
      = "Invalid"
  ∧ ((coverage_run "2025-06-05" [samplePolicyExpired] sampleCoverageInput).coverage_checks.filter
        (fun c => !c.passed)).map (fun c => c.detail) = ["Coverage status: Expired"]
  ∧ (coverage_run "2025-06-05" [samplePolicyExpired] sampleCoverageInput).reason
      ≠ String.intercalate " | "
          (((coverage_run "2025-06-05" [samplePolicyExpired] sampleCoverageInput).coverage_checks.filter
            (fun c => !c.passed)).map (fun c => c.detail)) := by
  decide

/-- Claim C3: when the policy number is not in the database the agent
returns Invalid, a "not found" reason, no policy details and an empty
check list, running none of the four checks. -/
theorem claim_C3 (now : String) (db : List Policy) (input : CoverageStageInput)
    (h : find_policy db (input_policy_number input) = none) :
    coverage_run now db input =
      { validation_status := "Invalid",
        reason := "Policy " ++ input_policy_number input ++ " not found in database.",
        policy_details := none,
        coverage_checks := [] } := by
  simp only [coverage_run]
  rw [h]

/-- Witness for C3 at a concrete missing policy. -/
theorem claim_C3_witness :
    coverage_run "2025-06-05" [] sampleCoverageInput =
      { validation_status := "Invalid",
        reason := "Policy POL001 not found in database.",
        policy_details := none,
        coverage_checks := [] } := by
  have h := claim_C3 "2025-06-05" [] sampleCoverageInput (by decide)
  simpa using h

/-- Claim C5: each missing/empty required field yields exactly one error
string, in the declared `REQUIRED_FIELDS` order (then the
`REQUIRED_INSURANCE_FIELDS` order when an insurance block is present),
and `is_valid` holds iff the error list is empty.  The right-hand side is
the spec-side description: the declared ordered field list filtered to
the missing ones. -/
theorem claim_C5 (p : PatientInfo) :
    validate_patient p =
      ((([(decide (p.patient_id = ""), "Missing required field: patient_id"),
          (decide (p.name = ""), "Missing required field: name"),
          (decide (p.dob = ""), "Missing required field: dob"),
          (p.insurance_details.isNone, "Missing required field: insurance_details")]
        ++ (match p.insurance_details with
            | none => []
            | some ins =>
              [(decide (ins.policy_number = ""), "Missing required insurance field: policy_number"),
               (decide (ins.provider = ""), "Missing required insurance field: provider")])).filter
          Prod.fst).map Prod.snd)
  ∧ (patient_is_valid p = true ↔ validate_patient p = []) := by
  constructor
  · cases hins : p.insurance_details with
    | none =>
      simp only [validate_patient, hins, Option.isNone_none]
      by_cases h1 : p.patient_id = "" <;> by_cases h2 : p.name = "" <;> by_cases h3 : p.dob = "" <;>
        simp [h1, h2, h3, List.filter]
    | some ins =>
      simp only [validate_patient, hins, Option.isNone_some]
      by_cases h1 : p.patient_id = "" <;> by_cases h2 : p.name = "" <;> by_cases h3 : p.dob = "" <;>
        by_cases h4 : ins.policy_number = "" <;> by_cases h5 : ins.provider = "" <;>
        simp [h1, h2, h3, h4, h5, List.filter]
  · unfold patient_is_valid
    exact List.isEmpty_iff

/-- Witness for C5 at a concrete patient record with two missing fields
and one missing insurance sub-field. -/
theorem claim_C5_witness :
    validate_patient
        { patient_id := "", name := "Ann", dob := "",
          insurance_details := some { policy_number := "", provider := "Aetna" } }
      = ["Missing required field: patient_id", "Missing required field: dob",
         "Missing required insurance field: policy_number"]
  ∧ patient_is_valid
        { patient_id := "", name := "Ann", dob := "",
          insurance_details := some { policy_number := "", provider := "Aetna" } }
      = false := by
  have h := claim_C5
    { patient_id := "", name := "Ann", dob := "",
      insurance_details := some { policy_number := "", provider := "Aetna" } }
  refine ⟨by rw [h.1]; decide, ?_⟩
  rcases hb : patient_is_valid
      { patient_id := "", name := "Ann", dob := "",
        insurance_details := some { policy_number := "", provider := "Aetna" } } with _ | _
  · rfl
  · have hnil := h.2.mp hb
    rw [h.1] at hnil
    exact absurd hnil (by decide)

/-- The per-code rate read by `_calculate_amount` is non-negative when
the whole catalog carries non-negative base rates. -/
theorem cpt_rate_nonneg (db : List (String × CptInfo))
    (hnn : ∀ e ∈ db, 0 ≤ e.2.base_rate) (c : String) : 0 ≤ cpt_rate db c := by
  unfold cpt_rate
  cases hf : db.find? (fun e => e.1 == c) with
  | none => exact le_refl 0
  | some e => exact hnn e (List.mem_of_find?_eq_some hf)

/-- Claim C6: over a catalog of non-negative base rates (true of any
billing catalog), the local charge is the sum of the resolved
base rates of the codes, except that a zero sum is replaced by the fixed default
charge 200. -/
theorem claim_C6 (db : List (String × CptInfo)) (cpt4_codes : List String)
    (hnn : ∀ e ∈ db, 0 ≤ e.2.base_rate) :
    ((cpt4_codes.map (cpt_rate db)).sum = 0 → calculate_amount db cpt4_codes = 200)
  ∧ ((cpt4_codes.map (cpt_rate db)).sum ≠ 0 →
      calculate_amount db cpt4_codes = (cpt4_codes.map (cpt_rate db)).sum) := by
  have hs : 0 ≤ (cpt4_codes.map (cpt_rate db)).sum := by
    apply List.sum_nonneg
    intro x hx
    simp only [List.mem_map] at hx
    obtain ⟨c, _, rfl⟩ := hx
    exact cpt_rate_nonneg db hnn c
  constructor
  · intro h0
    simp only [calculate_amount, h0]
    norm_num
  · intro hne
    have hpos : 0 < (cpt4_codes.map (cpt_rate db)).sum := lt_of_le_of_ne hs (Ne.symm hne)
    simp only [calculate_amount]
    rw [if_pos hpos]

/-- Witness for C6 at a concrete input: no codes resolve to a zero sum,
so the fixed default charge is billed. -/
theorem claim_C6_witness :
    calculate_amount [("99213", { description := "Office outpatient visit", base_rate := 125 })] []
      = 200 := by
  have h := claim_C6
    [("99213", { description := "Office outpatient visit", base_rate := 125 })] [] (by decide)
  exact h.1 rfl

/-- Boolean `List.contains` agrees with membership on strings. -/
theorem contains_iff_mem (l : List String) (a : String) : l.contains a = true ↔ a ∈ l :=
  List.elem_iff

/-- Appending a fresh element keeps a list duplicate-free. -/
theorem nodup_append_of_not_mem (l : List String) (a : String)
    (hn : l.Nodup) (hm : a ∉ l) : (l ++ [a]).Nodup := by
  simp [List.nodup_append, hn, hm]

/-- The guarded append of one catalog entry keeps the accumulated code
list duplicate-free. -/
theorem cpt_entry_step_nodup (words : List String) (codes : List String)
    (entry : String × CptInfo) (h : codes.Nodup) : (cpt_entry_step words codes entry).Nodup := by
  unfold cpt_entry_step
  split_ifs with hc
  · have hm : entry.1 ∉ codes := by
      rw [Bool.and_eq_true] at hc
      intro hmem
      have hcc := (contains_iff_mem codes entry.1).mpr hmem
      rw [hcc] at hc
      simp at hc
    exact nodup_append_of_not_mem codes entry.1 h hm
  · exact h

/-- Folding the entry step over the whole catalog keeps the code list
duplicate-free. -/
theorem foldl_entry_nodup (words : List String) (db : List (String × CptInfo)) :
    ∀ codes : List String, codes.Nodup → (db.foldl (cpt_entry_step words) codes).Nodup := by
  induction db with
  | nil => intro codes h; exact h
  | cons e t ih =>
    intro codes h
    exact ih (cpt_entry_step words codes e) (cpt_entry_step_nodup words codes e h)

/-- The matching pass of one procedure keeps the code list duplicate-free. -/
theorem cpt_proc_step_nodup (db : List (String × CptInfo)) (codes : List String)
    (procedure : String) (h : codes.Nodup) : (cpt_proc_step db codes procedure).Nodup :=
  foldl_entry_nodup _ db codes h

/-- Folding the procedure step over all procedures keeps the code list
duplicate-free. -/
theorem foldl_proc_nodup (db : List (String × CptInfo)) (procedures : List String) :
    ∀ codes : List String, codes.Nodup → (procedures.foldl (cpt_proc_step db) codes).Nodup := by
  induction procedures with
  | nil => intro codes h; exact h
  | cons p t ih =>
    intro codes h
    exact ih (cpt_proc_step db codes p) (cpt_proc_step_nodup db codes p h)

/-- The matched code list carries no duplicate codes. -/
theorem local_cpt4_match_nodup (db : List (String × CptInfo)) (procedures : List String) :
    (local_cpt4_match db procedures).Nodup :=
  foldl_proc_nodup db procedures [] List.nodup_nil

/-- The matched code list with the office-visit default is
duplicate-free. -/
theorem with_default_nodup (db : List (String × CptInfo)) (procedures : List String) :
    (if (local_cpt4_match db procedures).isEmpty then
        local_cpt4_match db procedures ++ ["99213"]
      else local_cpt4_match db procedures).Nodup := by
  have h0 := local_cpt4_match_nodup db procedures
  split_ifs with he
  · rw [List.isEmpty_iff] at he
    rw [he]
    decide
  · exact h0

/-- The final `_local_cpt4_lookup` result is duplicate-free. -/
theorem local_cpt4_lookup_nodup (db : List (String × CptInfo)) (procedures : List String) :
    (local_cpt4_lookup db procedures).Nodup := by
  have h1 := with_default_nodup db procedures
  show (let codes := local_cpt4_match db procedures
        let codes := if codes.isEmpty then codes ++ ["99213"] else codes
        if mentions_rapid_or_influenza procedures then
          if !(codes.contains "87804") then codes ++ ["87804"] else codes
        else codes).Nodup
  simp only
  set m1 := if (local_cpt4_match db procedures).isEmpty then
      local_cpt4_match db procedures ++ ["99213"]
    else local_cpt4_match db procedures with hm1
  split_ifs with h2 h3
  · have hnm : "87804" ∉ m1 := by
      intro hmem
      have hc := (contains_iff_mem m1 "87804").mpr hmem
      rw [hc] at h3
      exact Bool.false_ne_true h3
    exact nodup_append_of_not_mem m1 "87804" h1 hnm
  · exact h1
  · exact h1

/-- When some procedure mentions rapid/influenza, the code 87804 is in
the result. -/
theorem mem_of_mentions (db : List (String × CptInfo)) (procedures : List String)
    (h : mentions_rapid_or_influenza procedures = true) :
    "87804" ∈ local_cpt4_lookup db procedures := by
  show "87804" ∈
      (let codes := local_cpt4_match db procedures
       let codes := if codes.isEmpty then codes ++ ["99213"] else codes
       if mentions_rapid_or_influenza procedures then
         if !(codes.contains "87804") then codes ++ ["87804"] else codes
       else codes)
  simp only
  set m1 := if (local_cpt4_match db procedures).isEmpty then
      local_cpt4_match db procedures ++ ["99213"]
    else local_cpt4_match db procedures with hm1
  rw [if_pos h]
  split_ifs with h3
  · exact List.mem_append_right m1 (by decide)
  · have hc : m1.contains "87804" = true := by
      rcases hb : m1.contains "87804" with _ | _
      · rw [hb] at h3
        exact absurd rfl h3
      · rfl
    exact (contains_iff_mem m1 "87804").mp hc

/-- Claim C7 (corrected): token-overlap matching never duplicates a
code; when nothing matched and no procedure mentions rapid/influenza the
result is exactly the single office-visit code 99213; when nothing
matched but rapid/influenza is mentioned the result is 99213 followed by
87804 (so not exactly the single office-visit code); and whenever
rapid/influenza is mentioned, 87804 occurs exactly once. -/
theorem claim_C7 (db : List (String × CptInfo)) (procedures : List String) :
    (local_cpt4_match db procedures = [] → mentions_rapid_or_influenza procedures = false →
      local_cpt4_lookup db procedures = ["99213"])
  ∧ (local_cpt4_match db procedures = [] → mentions_rapid_or_influenza procedures = true →
      local_cpt4_lookup db procedures = ["99213", "87804"])
  ∧ (mentions_rapid_or_influenza procedures = true →
      (local_cpt4_lookup db procedures).count "87804" = 1)
  ∧ (local_cpt4_lookup db procedures).Nodup := by
  refine ⟨?_, ?_, ?_, local_cpt4_lookup_nodup db procedures⟩
  · intro hm hr
    unfold local_cpt4_lookup
    rw [hm, hr]
    rfl
  · intro hm hr
    unfold local_cpt4_lookup
    rw [hm, hr]
    rfl
  · intro h
    exact List.count_eq_one_of_mem (local_cpt4_lookup_nodup db procedures)
      (mem_of_mentions db procedures h)

/-- Witness for C7 at a concrete input. -/
theorem claim_C7_witness :
    local_cpt4_lookup [] ["rapid swab"] = ["99213", "87804"]
  ∧ (local_cpt4_lookup [] ["rapid swab"]).count "87804" = 1 := by
  have h := claim_C7 [] ["rapid swab"]
  exact ⟨h.2.1 (by decide) (by decide), h.2.2.1 (by decide)⟩

/-- Counterexample to C7 as stated: with an empty catalog (the state when
`cpt4_codes.json` is missing) and the single procedure "rapid", nothing
matches, yet the result is not exactly the single office-visit code —
the rapid-influenza augmentation appends 87804 as well. -/
theorem claim_C7_counterexample :
    ¬ (local_cpt4_match [] ["rapid"] = [] → local_cpt4_lookup [] ["rapid"] = ["99213"]) := by
  decide

/-- The step outcomes determine the data threading definitionally: the
document stage is invoked on the (possibly defaulted) patient payload,
and the triage stage on the (possibly defaulted) coverage, document and
claim payloads. -/
theorem run_steps_wiring {M : Type} (inputs : WorkflowInputs M)
    (pS : PatientStageInput → Except String PatientStageResult)
    (dS : DocStageInput M → Except String DocStageResult)
    (cS : CoverageStageInput → Except String CoverageResult)
    (lS : ClaimStageInput → Except String ClaimStageResult)
    (tS : TriageStageInput → Except String TriageStageResult) :
    (run_steps inputs pS dS cS lS tS).document_code = dS
      { patient_info := inputs.patient_info,
        diagnoses := (patient_result_of (run_steps inputs pS dS cS lS tS).patient_data).diagnoses,
        procedures := (patient_result_of (run_steps inputs pS dS cS lS tS).patient_data).procedures,
        document_metadata := inputs.document_metadata,
        clinical_notes := inputs.clinical_notes }
  ∧ (run_steps inputs pS dS cS lS tS).triage = tS
      { validation_status :=
          (coverage_result_of (run_steps inputs pS dS cS lS tS).coverage_validation).validation_status,
        validation_reason :=
          (coverage_result_of (run_steps inputs pS dS cS lS tS).coverage_validation).reason,
        coverage_checks :=
          (coverage_result_of (run_steps inputs pS dS cS lS tS).coverage_validation).coverage_checks,
        icd10_codes := (document_result_of (run_steps inputs pS dS cS lS tS).document_code).icd10_codes,
        cpt4_codes := (document_result_of (run_steps inputs pS dS cS lS tS).document_code).cpt4_codes,
        amount := (document_result_of (run_steps inputs pS dS cS lS tS).document_code).amount,
        claim_id := (claim_result_of (run_steps inputs pS dS cS lS tS).claim_generation).claim_id,
        patient_id := inputs.patient_info.patient_id } :=
  ⟨rfl, rfl⟩

/-- Claim C8: once the input files load, the orchestrator always returns
a structured result whose status is never "error": the status is
"completed" iff no stage failed and "completed_with_errors" otherwise;
every stage failure is recorded in the error list under the stage
name; a failed patient stage still hands the document stage the default
payload (empty diagnoses/procedures); a failed coverage stage still
hands triage the "Unknown" default; and only an input-loading failure
produces status "error" with the pipeline not started. -/
theorem claim_C8 {M : Type}
    (pS : PatientStageInput → Except String PatientStageResult)
    (dS : DocStageInput M → Except String DocStageResult)
    (cS : CoverageStageInput → Except String CoverageResult)
    (lS : ClaimStageInput → Except String ClaimStageResult)
    (tS : TriageStageInput → Except String TriageStageResult)
    (load : Except String (WorkflowInputs M)) (inputs : WorkflowInputs M)
    (hload : load = Except.ok inputs) :
    (run_workflow load pS dS cS lS tS).steps = some (run_steps inputs pS dS cS lS tS)
  ∧ ((run_workflow load pS dS cS lS tS).status = "completed"
      ↔ (run_workflow load pS dS cS lS tS).errors = [])
  ∧ ((run_workflow load pS dS cS lS tS).errors ≠ [] →
      (run_workflow load pS dS cS lS tS).status = "completed_with_errors")
  ∧ (run_workflow load pS dS cS lS tS).status ≠ "error"
  ∧ (∀ exc, (run_steps inputs pS dS cS lS tS).patient_data = Except.error exc →
      ("Patient Data Agent: " ++ exc) ∈ (run_workflow load pS dS cS lS tS).errors)
  ∧ (∀ exc, (run_steps inputs pS dS cS lS tS).document_code = Except.error exc →
      ("Document Code Agent: " ++ exc) ∈ (run_workflow load pS dS cS lS tS).errors)
  ∧ (∀ exc, (run_steps inputs pS dS cS lS tS).coverage_validation = Except.error exc →
      ("Coverage Validation Agent: " ++ exc) ∈ (run_workflow load pS dS cS lS tS).errors)
  ∧ (∀ exc, (run_steps inputs pS dS cS lS tS).claim_generation = Except.error exc →
      ("Claim Generation Agent: " ++ exc) ∈ (run_workflow load pS dS cS lS tS).errors)
  ∧ (∀ exc, (run_steps inputs pS dS cS lS tS).triage = Except.error exc →
      ("Triage Agent: " ++ exc) ∈ (run_workflow load pS dS cS lS tS).errors)
  ∧ (∀ exc, (run_steps inputs pS dS cS lS tS).patient_data = Except.error exc →
      (run_steps inputs pS dS cS lS tS).document_code = dS
        { patient_info := inputs.patient_info,
          diagnoses := [],
          procedures := [],
          document_metadata := inputs.document_metadata,
          clinical_notes := inputs.clinical_notes })
  ∧ (∀ exc, (run_steps inputs pS dS cS lS tS).coverage_validation = Except.error exc →
      (run_steps inputs pS dS cS lS tS).triage = tS
        { validation_status := "Unknown",
          validation_reason := exc,
          coverage_checks := [],
          icd10_codes := (document_result_of (run_steps inputs pS dS cS lS tS).document_code).icd10_codes,
          cpt4_codes := (document_result_of (run_steps inputs pS dS cS lS tS).document_code).cpt4_codes,
          amount := (document_result_of (run_steps inputs pS dS cS lS tS).document_code).amount,
          claim_id := (claim_result_of (run_steps inputs pS dS cS lS tS).claim_generation).claim_id,
          patient_id := inputs.patient_info.patient_id })
  ∧ (∀ exc, run_workflow (Except.error exc) pS dS cS lS tS =
      { steps := none,
        errors := ["Failed to load input files: " ++ exc],
        status := "error",
        summary := none }) := by
  subst hload
  have herr : (run_workflow (Except.ok inputs) pS dS cS lS tS).errors
      = stage_errors (run_steps inputs pS dS cS lS tS) := rfl
  have hstat : (run_workflow (Except.ok inputs) pS dS cS lS tS).status
      = (if (stage_errors (run_steps inputs pS dS cS lS tS)).isEmpty
          then "completed" else "completed_with_errors") := rfl
  refine ⟨rfl, ?_, ?_, ?_, ?_, ?_, ?_, ?_, ?_, ?_, ?_, fun exc => rfl⟩
  · rw [herr, hstat]
    by_cases he : stage_errors (run_steps inputs pS dS cS lS tS) = []
    · rw [he]
      simp
    · rw [if_neg (by simpa [List.isEmpty_iff] using he)]
      simp [he]
  · intro hne
    rw [herr] at hne
    rw [hstat]
    rw [if_neg (by simpa [List.isEmpty_iff] using hne)]
  · rw [hstat]
    cases he : (stage_errors (run_steps inputs pS dS cS lS tS)).isEmpty <;> simp
  · intro exc h
    rw [herr]
    simp [stage_errors, caught, h]
  · intro exc h
    rw [herr]
    simp [stage_errors, caught, h]
  · intro exc h
    rw [herr]
    simp [stage_errors, caught, h]
  · intro exc h
    rw [herr]
    simp [stage_errors, caught, h]
  · intro exc h
    rw [herr]
    simp [stage_errors, caught, h]
  · intro exc h
    have hw := (run_steps_wiring inputs pS dS cS lS tS).1
    rw [hw, h]
    rfl
  · intro exc h
    have hw := (run_steps_wiring inputs pS dS cS lS tS).2
    rw [hw, h]
    rfl

/-- Witness for C8 at a concrete run in which every stage fails: the
status degrades to "completed_with_errors" and the coverage failure is
recorded under its stage name. -/
theorem claim_C8_witness :
    (run_workflow
        (Except.ok
          { patient_info :=
              { patient_id := "P1", name := "Ann", dob := "1990-01-01",
                insurance_details := none },
            clinical_notes := "note", document_metadata := "doc1" })
        (fun _ => Except.error "boom") (fun _ => Except.error "doc down")
        (fun _ => Except.error "cov down") (fun _ => Except.error "claim down")
        (fun _ => Except.error "triage down")).status = "completed_with_errors"
  ∧ "Coverage Validation Agent: cov down" ∈
      (run_workflow
        (Except.ok
          { patient_info :=
              { patient_id := "P1", name := "Ann", dob := "1990-01-01",
                insurance_details := none },
            clinical_notes := "note", document_metadata := "doc1" })
        (fun _ => Except.error "boom") (fun _ => Except.error "doc down")
        (fun _ => Except.error "cov down") (fun _ => Except.error "claim down")
        (fun _ => Except.error "triage down")).errors := by
  have h := claim_C8
    (fun _ => Except.error "boom") (fun _ => Except.error "doc down")
    (fun _ => Except.error "cov down") (fun _ => Except.error "claim down")
    (fun _ => Except.error "triage down")
    (Except.ok
      { patient_info :=
          { patient_id := "P1", name := "Ann", dob := "1990-01-01",
            insurance_details := none },
        clinical_notes := "note", document_metadata := "doc1" })
    { patient_info :=
        { patient_id := "P1", name := "Ann", dob := "1990-01-01",
          insurance_details := none },
      clinical_notes := "note", document_metadata := "doc1" }
    rfl
  exact ⟨h.2.2.1 (by decide), h.2.2.2.2.2.2.1 "cov down" rfl⟩

end MediSuite
